import Mathlib

/-!
Shallow embedding of the Q-Bot conversational backend core:
the Conversation/Message data model (app/models/conversation.py),
the conversation manager (app/ai/conversation_manager.py),
the generation-parameter resolution and confidence scoring of the
model manager (app/ai/models.py), and the archive/restore routes
(app/api/routes/conversations.py).

Modelling conventions:
- MongoDB ObjectIds are modelled as `Nat`, allocated from per-collection
  counters (`nextConvId`, `nextMsgId`) held in the `Store`.
- `datetime.utcnow()` is modelled as a logical clock `Store.clock`; each
  store operation that reads the wall clock uses the current value and
  ticks the clock, so successive timestamps are strictly increasing
  (microsecond-resolution wall time in the source).
- The Entity Store (Beanie/MongoDB) is modelled per its capability
  contract: `insert` appends, `save` replaces the record with the same id,
  `find(...).sort(-timestamp).limit(n)` is filter, sort descending by
  timestamp, take n.
- The LanguageModel pipeline call is external; a run is parametrised by a
  `World` oracle giving the generation outcome (generated text and wall
  time, or a raised error) and whether the post-generation
  `conversation.save()` raises (`StoreError`).  All other operations are
  assumed not to raise, matching the failure taxonomy of the system.
- Python floats are modelled as exact rationals `ℚ`.
-/

namespace QBot

/-- MessageType enumeration (conversation.py lines 12-16). -/
inductive MessageType where
  | user
  | assistant
  | system
deriving DecidableEq

/-- MessageStatus enumeration (conversation.py lines 19-24). -/
inductive MessageStatus where
  | pending
  | processing
  | completed
  | failed
deriving DecidableEq

/-- ConversationStatus enumeration (conversation.py lines 53-58). -/
inductive ConversationStatus where
  | active
  | paused
  | completed
  | archived
deriving DecidableEq

/-- A value stored in a free-form metadata dict: string, int or float. -/
inductive MetaVal where
  | str (v : String)
  | int (v : Nat)
  | num (v : ℚ)
deriving DecidableEq

/-- A free-form mapping, modelled as an association list. -/
abbrev Metadata := List (String × MetaVal)

/-- Dict lookup: `d.get(k)` returns the first binding of `k`, else None. -/
def mdGet (md : Metadata) (k : String) : Option MetaVal :=
  (md.find? (fun p => p.1 == k)).map (fun p => p.2)

/-- Dict lookup of a string value. -/
def mdGetStr (md : Metadata) (k : String) : Option String :=
  match mdGet md k with
  | some (MetaVal.str v) => some v
  | _ => none

/-- Dict lookup of a numeric value, as a rational. -/
def mdGetNum (md : Metadata) (k : String) : Option ℚ :=
  match mdGet md k with
  | some (MetaVal.num v) => some v
  | some (MetaVal.int n) => some (n : ℚ)
  | _ => none

/-- Dict lookup of an int value with a default: `d.get(k, d0)`. -/
def mdGetIntD (md : Metadata) (k : String) (d0 : Nat) : Nat :=
  match mdGet md k with
  | some (MetaVal.int v) => v
  | _ => d0

/-- Message document model (conversation.py lines 27-50).  The `status`
field defaults to COMPLETED in the source; callers that construct a
message without a status get COMPLETED. -/
structure Message where
  id : Nat
  conversation_id : Nat
  content : String
  message_type : MessageType
  status : MessageStatus
  timestamp : Nat
  model_used : Option String
  confidence_score : Option ℚ
  processing_time : Option ℚ
  metadata : Metadata
deriving DecidableEq

/-- The `model_config` dict of a Conversation: generation overrides.
Only the two keys the system ever reads are modelled; a missing key is
`none` (`dict.get` returns None). -/
structure ModelConfig where
  max_tokens : Option Nat
  temperature : Option ℚ
deriving DecidableEq

/-- Conversation document model (conversation.py lines 61-88). -/
structure Conversation where
  id : Nat
  user_id : Nat
  title : Option String
  status : ConversationStatus
  created_at : Nat
  updated_at : Nat
  model_config : ModelConfig
  context_window : Nat
  message_count : Nat
  total_tokens_used : Nat
  metadata : Metadata
deriving DecidableEq

/-- The Entity Store: the `conversations` and `messages` collections, the
id allocators for each, and the logical wall clock. -/
structure Store where
  conversations : List Conversation
  messages : List Message
  nextConvId : Nat
  nextMsgId : Nat
  clock : Nat
deriving DecidableEq

/-- Point lookup `Conversation.get(id)`: the conversation with this id,
or None. -/
def Conversation.get (s : Store) (cid : Nat) : Option Conversation :=
  s.conversations.find? (fun c => c.id == cid)

/-- Save-in-place of a conversation: replace the record with the same id. -/
def replaceConv (l : List Conversation) (c : Conversation) : List Conversation :=
  l.map (fun x => if x.id == c.id then c else x)

/-- Save-in-place of a message: replace the record with the same id. -/
def replaceMsg (l : List Message) (m : Message) : List Message :=
  l.map (fun x => if x.id == m.id then m else x)

/-- Model of `conversation.save()`. -/
def Store.saveConversation (s : Store) (c : Conversation) : Store :=
  { s with conversations := replaceConv s.conversations c }

/-- Model of `message.save()`. -/
def Store.saveMessage (s : Store) (m : Message) : Store :=
  { s with messages := replaceMsg s.messages m }

/-- Sort relation of the store query `.sort(-Message.timestamp)`:
descending by timestamp. -/
def msgGE (a b : Message) : Prop :=
  b.timestamp ≤ a.timestamp

instance : DecidableRel msgGE :=
  fun a b => inferInstanceAs (Decidable (b.timestamp ≤ a.timestamp))

instance : IsTotal Message msgGE :=
  ⟨fun a b => Nat.le_total b.timestamp a.timestamp⟩

instance : IsTrans Message msgGE :=
  ⟨fun _ _ _ h1 h2 => Nat.le_trans h2 h1⟩

/-- Model of `Conversation.get_messages` (conversation.py lines 94-98):
`Message.find(conversation_id == self.id).sort(-timestamp).limit(limit)`.
Filter the collection to this conversation, sort descending by timestamp,
take at most `limit`. -/
def Conversation.get_messages (s : Store) (self : Conversation) (limit : Nat) : List Message :=
  (List.insertionSort msgGE (s.messages.filter (fun m => m.conversation_id == self.id))).take limit

/-- Result of `Conversation.add_message`: the updated store, the updated
in-memory conversation object, and the inserted message. -/
structure AddResult where
  store : Store
  conv : Conversation
  msg : Message
deriving DecidableEq

/-- Model of `Conversation.add_message` (conversation.py lines 100-115): construct
a Message (timestamp from the clock), insert it, then increment
`message_count`, bump `updated_at` and save the conversation. -/
def Conversation.add_message (s : Store) (self : Conversation) (content : String)
    (message_type : MessageType) (status : MessageStatus) : AddResult :=
  let m : Message :=
    { id := s.nextMsgId, conversation_id := self.id, content := content,
      message_type := message_type, status := status, timestamp := s.clock,
      model_used := none, confidence_score := none, processing_time := none,
      metadata := [] }
  let conv :=
    { self with message_count := self.message_count + 1, updated_at := s.clock }
  let s1 : Store :=
    { s with
      messages := s.messages ++ [m]
      nextMsgId := s.nextMsgId + 1
      clock := s.clock + 1 }
  { store := s1.saveConversation conv, conv := conv, msg := m }

/-- Result of conversation resolution: the (possibly extended) store and
the resolved or created conversation. -/
structure ResolveResult where
  store : Store
  conv : Conversation
deriving DecidableEq

/-- New-conversation construction of `_get_or_create_conversation`
(conversation_manager.py lines 123-140): title "New Conversation",
model_config {max_tokens: 512, temperature: 0.7}, model defaults for the
rest (status ACTIVE, context_window 10, zero counters), then insert. -/
def createConversation (s : Store) (user_id : Nat) : ResolveResult :=
  let conversation : Conversation :=
    { id := s.nextConvId, user_id := user_id, title := some "New Conversation",
      status := ConversationStatus.active, created_at := s.clock, updated_at := s.clock,
      model_config := { max_tokens := some 512, temperature := some ((7 : ℚ)/10) },
      context_window := 10, message_count := 0, total_tokens_used := 0, metadata := [] }
  { store :=
      { s with
        conversations := s.conversations ++ [conversation]
        nextConvId := s.nextConvId + 1
        clock := s.clock + 1 }
    conv := conversation }

/-- Model of `_get_or_create_conversation` (conversation_manager.py lines 112-140):
if an id is supplied and resolves to a conversation owned by `user_id`,
return it; in every other case (no id, unknown id, or a conversation owned
by a different user) fall through and create a new conversation. -/
def get_or_create_conversation (s : Store) (conversation_id : Option Nat)
    (user_id : Nat) : ResolveResult :=
  match conversation_id with
  | some cid =>
    match Conversation.get s cid with
    | some conversation =>
      if conversation.user_id == user_id then { store := s, conv := conversation }
      else createConversation s user_id
    | none => createConversation s user_id
  | none => createConversation s user_id

/-- A role-tagged turn handed to the language model. -/
structure Turn where
  role : String
  content : String
deriving DecidableEq

/-- The messages surviving context assembly, before role mapping: the at
most `context_window` most recent messages, reversed into chronological
order, filtered to status COMPLETED. -/
def contextMessages (s : Store) (conversation : Conversation) : List Message :=
  ((Conversation.get_messages s conversation conversation.context_window).reverse).filter
    (fun m => m.status == MessageStatus.completed)

/-- Role mapping of `_get_conversation_context` (conversation_manager.py
line 157): role is "user" for a USER message and "assistant" for anything
else. -/
def msgToTurn (m : Message) : Turn :=
  { role := if m.message_type == MessageType.user then "user" else "assistant",
    content := m.content }

/-- Model of `_get_conversation_context` (conversation_manager.py lines 142-163):
fetch `context_window` messages (store returns newest first), reverse to
chronological order, and keep `{role, content}` for the COMPLETED ones. -/
def get_conversation_context (s : Store) (conversation : Conversation) : List Turn :=
  (contextMessages s conversation).map msgToTurn

/-- Settings default `max_tokens = 512` (config.py). -/
def settings_max_tokens : Nat := 512

/-- Settings default `temperature = 0.7` (config.py). -/
def settings_temperature : ℚ := (7 : ℚ)/10

/-- Settings `default_model` (config.py). -/
def settings_default_model : String := "microsoft/DialoGPT-medium"

/-- The torch device string; modelled as a cpu host. -/
def device : String := "cpu"

/-- Python `x or d` on an optional numeric value: None, 0 and 0.0 are
falsy and fall back to the default (models.py lines 109-110). -/
def pyOrNat (x : Option Nat) (d : Nat) : Nat :=
  match x with
  | none => d
  | some v => if v = 0 then d else v

/-- Python `x or d` on an optional rational, same falsiness rule. -/
def pyOrRat (x : Option ℚ) (d : ℚ) : ℚ :=
  match x with
  | none => d
  | some v => if v = 0 then d else v

/-- Python `str.split()` with no argument: split on whitespace runs and
drop empty pieces. -/
def pySplitWS (text : String) : List String :=
  (text.split (fun c => c.isWhitespace)).filter (fun w => w ≠ "")

/-- Model of `ModelManager._calculate_confidence` (models.py lines 169-184): 0.1
for empty or near-empty text, then word-count heuristics. -/
def _calculate_confidence (text : String) : ℚ :=
  if text = "" ∨ text.trim.length < 5 then (1 : ℚ)/10
  else
    let word_count := (pySplitWS text).length
    if word_count < 3 then (3 : ℚ)/10
    else if word_count > 100 then (6 : ℚ)/10
    else min ((9 : ℚ)/10) ((4 : ℚ)/10 + ((word_count : ℚ) / 100) * ((1 : ℚ)/2))

/-- Oracle for one successful pipeline call: the generated text and the
elapsed wall time the manager measures. -/
structure GenOk where
  text : String
  time : ℚ
deriving DecidableEq

/-- Return value of `generate_response`: `(response_text, metadata)`. -/
structure GenResponse where
  text : String
  metadata : Metadata
deriving DecidableEq

/-- Successful path of `ModelManager.generate_response` (models.py lines
105-148): resolve max_tokens/temperature with Python `or` against the
settings defaults, take the pipeline output (the oracle `g`), score it,
and build the metadata dict.  Note the dict carries no "tokens_used"
key. -/
def generate_response (conversation_history : List Turn) (max_tokens : Option Nat)
    (temperature : Option ℚ) (g : GenOk) : GenResponse :=
  let mt := pyOrNat max_tokens settings_max_tokens
  let temp := pyOrRat temperature settings_temperature
  let _ := conversation_history
  { text := g.text
    metadata :=
      [("model_used", MetaVal.str settings_default_model),
       ("processing_time", MetaVal.num g.time),
       ("confidence_score", MetaVal.num (_calculate_confidence g.text)),
       ("max_tokens", MetaVal.int mt),
       ("temperature", MetaVal.num temp),
       ("device", MetaVal.str device)] }

/-- Outcome of the language-model call in a given run. -/
inductive GenOutcome where
  | ok (g : GenOk)
  | failure (e : String)
deriving DecidableEq

/-- Oracle for one `process_user_message` run: the generation outcome,
and whether the post-generation `conversation.save()` raises (and with
what error text).  All other awaited operations are assumed to succeed. -/
structure World where
  gen : GenOutcome
  convSaveError : Option String
deriving DecidableEq

/-- State after the first half of `process_user_message` (lines 38-57):
resolved conversation, both inserted messages, and the assembled
context. -/
structure TurnSetup where
  store : Store
  conv : Conversation
  userMsg : Message
  aiMsg : Message
  history : List Turn
deriving DecidableEq

/-- First half of `process_user_message` (conversation_manager.py lines
38-57): resolve or create the conversation, append the USER message
(status defaults to COMPLETED), append the empty ASSISTANT placeholder
with status PROCESSING, and build the context from the current state. -/
def beginTurn (s : Store) (conversation_id : Option Nat) (user_message : String)
    (user_id : Nat) : TurnSetup :=
  let g := get_or_create_conversation s conversation_id user_id
  let u := Conversation.add_message g.store g.conv user_message
    MessageType.user MessageStatus.completed
  let a := Conversation.add_message u.store u.conv ""
    MessageType.assistant MessageStatus.processing
  { store := a.store
    conv := a.conv
    userMsg := u.msg
    aiMsg := a.msg
    history := get_conversation_context a.store a.conv }

/-- State after the success reconciliation (lines 66-77), before the
final `conversation.save()`. -/
structure CompleteResult where
  store : Store
  conv : Conversation
  aiMsg : Message
deriving DecidableEq

/-- Success reconciliation of `process_user_message` (lines 66-77): fill
the assistant message from the result, mark it COMPLETED, save it, and
add `metadata.get("tokens_used", 0)` (which is 0: the metadata dict has
no such key) to the conversation's `total_tokens_used`. -/
def completeAi (s : Store) (conversation : Conversation) (aiMsg : Message)
    (r : GenResponse) : CompleteResult :=
  let m :=
    { aiMsg with
      content := r.text
      status := MessageStatus.completed
      model_used := mdGetStr r.metadata "model_used"
      confidence_score := mdGetNum r.metadata "confidence_score"
      processing_time := mdGetNum r.metadata "processing_time"
      metadata := r.metadata }
  { store := s.saveMessage m
    conv :=
      { conversation with
        total_tokens_used :=
          conversation.total_tokens_used + mdGetIntD r.metadata "tokens_used" 0 }
    aiMsg := m }

/-- The error result of a failed run: the store after the except-block
write, and the re-raised error. -/
structure RunErr where
  store : Store
  error : String
deriving DecidableEq

/-- Except-block of `process_user_message` (lines 96-110): mark the
assistant message FAILED, replace its metadata with the error, save it,
and re-raise. -/
def failTurn (s : Store) (aiMsg : Message) (e : String) : RunErr :=
  let m :=
    { aiMsg with
      status := MessageStatus.failed
      metadata := [("error", MetaVal.str e)] }
  { store := s.saveMessage m, error := e }

/-- The success return dict of `process_user_message` (lines 88-94), plus
the final store. -/
structure RunOk where
  store : Store
  conversation_id : Nat
  user_message_id : Nat
  ai_message_id : Nat
  response : String
  metadata : Metadata
deriving DecidableEq

/-- Model of `ConversationManager.process_user_message` (conversation_manager.py
lines 20-110), as a function of the store and the run oracle.  A raised
exception is an `Except.error` carrying the store as left by the
except-block write. -/
def process_user_message (s : Store) (conversation_id : Option Nat)
    (user_message : String) (user_id : Nat) (w : World) : Except RunErr RunOk :=
  let t := beginTurn s conversation_id user_message user_id
  match w.gen with
  | GenOutcome.failure e => Except.error (failTurn t.store t.aiMsg e)
  | GenOutcome.ok g =>
    let r := generate_response t.history t.conv.model_config.max_tokens
      t.conv.model_config.temperature g
    let c := completeAi t.store t.conv t.aiMsg r
    match w.convSaveError with
    | some e => Except.error (failTurn c.store c.aiMsg e)
    | none =>
      Except.ok
        { store := c.store.saveConversation c.conv
          conversation_id := t.conv.id
          user_message_id := t.userMsg.id
          ai_message_id := t.aiMsg.id
          response := r.text
          metadata := r.metadata }

/-- Model of the `archive_conversation` route (conversations.py lines 259-290): 404
when absent or unowned, else set status ARCHIVED, bump updated_at,
save. -/
def archive_conversation (s : Store) (conversation_id : Nat)
    (current_user : Nat) : Except Unit Store :=
  match Conversation.get s conversation_id with
  | none => Except.error ()
  | some conversation =>
    if conversation.user_id == current_user then
      let conversation :=
        { conversation with
          status := ConversationStatus.archived
          updated_at := s.clock }
      Except.ok (Store.saveConversation { s with clock := s.clock + 1 } conversation)
    else Except.error ()

/-- Model of the `restore_conversation` route (conversations.py lines 293-324): 404
when absent or unowned, else set status ACTIVE, bump updated_at, save. -/
def restore_conversation (s : Store) (conversation_id : Nat)
    (current_user : Nat) : Except Unit Store :=
  match Conversation.get s conversation_id with
  | none => Except.error ()
  | some conversation =>
    if conversation.user_id == current_user then
      let conversation :=
        { conversation with
          status := ConversationStatus.active
          updated_at := s.clock }
      Except.ok (Store.saveConversation { s with clock := s.clock + 1 } conversation)
    else Except.error ()

/-- Number of stored Message records with this conversation_id. -/
def countMessages (s : Store) (cid : Nat) : Nat :=
  (s.messages.filter (fun m => m.conversation_id == cid)).length

/-- Store sanity invariant established by the store operations: ids are
below the allocators, timestamps are below the clock, message insertion
order is chronological, and messages reference allocated conversation
ids. -/
def Store.WF (s : Store) : Prop :=
  (∀ m ∈ s.messages, m.id < s.nextMsgId) ∧
  (∀ m ∈ s.messages, m.timestamp < s.clock) ∧
  (∀ m ∈ s.messages, m.conversation_id < s.nextConvId) ∧
  s.messages.Pairwise (fun a b => a.timestamp < b.timestamp) ∧
  (∀ c ∈ s.conversations, c.id < s.nextConvId)

instance (s : Store) : Decidable s.WF := by
  unfold Store.WF
  infer_instance

/-- Point lookup of a message by id, used to observe persisted message
state in the statements below. -/
def findMessage (s : Store) (mid : Nat) : Option Message :=
  s.messages.find? (fun m => m.id == mid)

/-! Shapes of the records the run writes, in terms of the
resolution result `g`.  These are specification shorthands; each is
definitionally what the orchestration code constructs. -/

/-- The USER message inserted by step 2 of the run. -/
def userMsgOf (g : ResolveResult) (user_message : String) : Message :=
  { id := g.store.nextMsgId, conversation_id := g.conv.id, content := user_message,
    message_type := MessageType.user, status := MessageStatus.completed,
    timestamp := g.store.clock, model_used := none, confidence_score := none,
    processing_time := none, metadata := [] }

/-- The ASSISTANT placeholder inserted by step 3 of the run. -/
def aiMsgOf (g : ResolveResult) : Message :=
  { id := g.store.nextMsgId + 1, conversation_id := g.conv.id, content := "",
    message_type := MessageType.assistant, status := MessageStatus.processing,
    timestamp := g.store.clock + 1, model_used := none, confidence_score := none,
    processing_time := none, metadata := [] }

/-- The conversation object after the first append. -/
def convMidOf (g : ResolveResult) : Conversation :=
  { g.conv with message_count := g.conv.message_count + 1, updated_at := g.store.clock }

/-- The conversation object after both appends. -/
def convBothOf (g : ResolveResult) : Conversation :=
  { g.conv with message_count := g.conv.message_count + 2, updated_at := g.store.clock + 1 }

/-- The persisted store after both inserts. -/
def storeAfterInserts (g : ResolveResult) (user_message : String) : Store :=
  { conversations := replaceConv (replaceConv g.store.conversations (convMidOf g)) (convBothOf g)
    messages := g.store.messages ++ [userMsgOf g user_message] ++ [aiMsgOf g]
    nextConvId := g.store.nextConvId
    nextMsgId := g.store.nextMsgId + 2
    clock := g.store.clock + 2 }

/-- Generation metadata of a run, as a function of the conversation's
overrides and the oracle (the history does not influence the metadata). -/
def mdOf (conv : Conversation) (gk : GenOk) : Metadata :=
  (generate_response [] conv.model_config.max_tokens conv.model_config.temperature gk).metadata

/-- The assistant message as completed by a successful run. -/
def aiDoneOf (g : ResolveResult) (gk : GenOk) : Message :=
  { aiMsgOf g with
    content := gk.text
    status := MessageStatus.completed
    model_used := mdGetStr (mdOf g.conv gk) "model_used"
    confidence_score := mdGetNum (mdOf g.conv gk) "confidence_score"
    processing_time := mdGetNum (mdOf g.conv gk) "processing_time"
    metadata := mdOf g.conv gk }

/-- The assistant message as left by the except-block after a generation
failure. -/
def aiFailedOf (g : ResolveResult) (e : String) : Message :=
  { aiMsgOf g with
    status := MessageStatus.failed
    metadata := [("error", MetaVal.str e)] }

/-- The assistant message as left by the except-block when the final
conversation save fails after completion. -/
def aiDoneFailedOf (g : ResolveResult) (gk : GenOk) (e : String) : Message :=
  { aiDoneOf g gk with
    status := MessageStatus.failed
    metadata := [("error", MetaVal.str e)] }

/-- The conversation as saved at the end of a successful run. -/
def convDoneOf (g : ResolveResult) (gk : GenOk) : Conversation :=
  { convBothOf g with
    total_tokens_used :=
      (convBothOf g).total_tokens_used + mdGetIntD (mdOf g.conv gk) "tokens_used" 0 }

/-- The final store of a fully successful run. -/
def finalOkStore (g : ResolveResult) (user_message : String) (gk : GenOk) : Store :=
  ((storeAfterInserts g user_message).saveMessage (aiDoneOf g gk)).saveConversation
    (convDoneOf g gk)

/-- The final store of a run whose generation call raises. -/
def finalGenFailStore (g : ResolveResult) (user_message : String) (e : String) : Store :=
  (storeAfterInserts g user_message).saveMessage (aiFailedOf g e)

/-- The final store of a run whose post-generation conversation save
raises. -/
def finalConvFailStore (g : ResolveResult) (user_message : String) (gk : GenOk)
    (e : String) : Store :=
  ((storeAfterInserts g user_message).saveMessage (aiDoneOf g gk)).saveMessage
    (aiDoneFailedOf g gk e)

/-- The store the archive route leaves behind on success. -/
def archivedStoreOf (s : Store) (conv : Conversation) : Store :=
  Store.saveConversation { s with clock := s.clock + 1 }
    { conv with status := ConversationStatus.archived, updated_at := s.clock }

/-- The store the restore route leaves behind when run after the archive
route. -/
def restoredStoreOf (s : Store) (conv : Conversation) : Store :=
  Store.saveConversation { archivedStoreOf s conv with clock := s.clock + 2 }
    { conv with status := ConversationStatus.active, updated_at := s.clock + 1 }

/-! Concrete fixtures used by counterexamples and witnesses. -/

/-- An empty generation-override dict. -/
def mcNone : ModelConfig := { max_tokens := none, temperature := none }

/-- A conversation owned by user 1 with the default window. -/
def convA : Conversation :=
  { id := 0, user_id := 1, title := some "chat", status := ConversationStatus.active,
    created_at := 0, updated_at := 0, model_config := mcNone, context_window := 10,
    message_count := 0, total_tokens_used := 0, metadata := [] }

/-- A store holding only `convA`. -/
def S1c : Store :=
  { conversations := [convA], messages := [], nextConvId := 1, nextMsgId := 0, clock := 1 }

/-- A successful generation oracle. -/
def gkA : GenOk := { text := "hello there my good friend", time := 1 }

/-- A run oracle where everything succeeds. -/
def WOkA : World := { gen := GenOutcome.ok gkA, convSaveError := none }

/-- A run oracle where generation succeeds but the final conversation
save raises. -/
def WConvFail : World := { gen := GenOutcome.ok gkA, convSaveError := some "StoreError" }

/-- A stored COMPLETED SYSTEM message. -/
def sysMsgA : Message :=
  { id := 0, conversation_id := 0, content := "system note",
    message_type := MessageType.system, status := MessageStatus.completed,
    timestamp := 0, model_used := none, confidence_score := none,
    processing_time := none, metadata := [] }

/-- A store where `convA` has one COMPLETED SYSTEM message. -/
def S5c : Store :=
  { conversations := [convA], messages := [sysMsgA], nextConvId := 1, nextMsgId := 1,
    clock := 1 }

/-- A conversation whose overrides are the falsy values 0 and 0.0. -/
def convZ : Conversation :=
  { convA with model_config := { max_tokens := some 0, temperature := some 0 } }

/-- A store holding only `convZ`. -/
def S9c : Store :=
  { conversations := [convZ], messages := [], nextConvId := 1, nextMsgId := 0, clock := 1 }

/-- A conversation with a context window of exactly one message. -/
def convW1 : Conversation := { convA with context_window := 1 }

/-- A store holding only `convW1`. -/
def S8c : Store :=
  { conversations := [convW1], messages := [], nextConvId := 1, nextMsgId := 0, clock := 1 }

/-! Store-operation lemmas. -/

/-- Replacing the record with a given id and then looking that id up finds
the replacement, exactly when the id was present before. -/
theorem find?_replaceConv_self (l : List Conversation) (c : Conversation) :
    (replaceConv l c).find? (fun x => x.id == c.id) =
      (l.find? (fun x => x.id == c.id)).map (fun _ => c) := by
  induction l with
  | nil => rfl
  | cons a l ih =>
    show List.find? _ ((if (a.id == c.id) then c else a) :: replaceConv l c) = _
    by_cases h : a.id = c.id
    · rw [if_pos (by simpa using h)]
      rw [List.find?_cons_of_pos _ (by simp)]
      rw [List.find?_cons_of_pos _ (by simpa using h)]
      rfl
    · rw [if_neg (by simpa using h)]
      rw [List.find?_cons_of_neg _ (by simpa using h)]
      rw [List.find?_cons_of_neg _ (by simpa using h)]
      exact ih

/-- Replacing a record does not affect lookups of other ids. -/
theorem find?_replaceConv_ne (l : List Conversation) (c : Conversation) (cid : Nat)
    (h : cid ≠ c.id) :
    (replaceConv l c).find? (fun x => x.id == cid) = l.find? (fun x => x.id == cid) := by
  induction l with
  | nil => rfl
  | cons a l ih =>
    show List.find? _ ((if (a.id == c.id) then c else a) :: replaceConv l c) = _
    by_cases ha : a.id = c.id
    · rw [if_pos (by simpa using ha)]
      rw [List.find?_cons_of_neg _ (by simp; omega)]
      rw [List.find?_cons_of_neg _ (by simp; omega)]
      exact ih
    · rw [if_neg (by simpa using ha)]
      by_cases hc : a.id = cid
      · rw [List.find?_cons_of_pos _ (by simpa using hc)]
        rw [List.find?_cons_of_pos _ (by simpa using hc)]
      · rw [List.find?_cons_of_neg _ (by simpa using hc)]
        rw [List.find?_cons_of_neg _ (by simpa using hc)]
        exact ih

/-- Replacing a message whose id occurs nowhere in the list is the
identity. -/
theorem replaceMsg_eq_self (l : List Message) (m : Message)
    (h : ∀ x ∈ l, x.id ≠ m.id) : replaceMsg l m = l := by
  induction l with
  | nil => rfl
  | cons a l ih =>
    show (if (a.id == m.id) then m else a) :: replaceMsg l m = a :: l
    rw [if_neg (by simpa using h a (List.mem_cons_self a l))]
    rw [ih (fun x hx => h x (List.mem_cons_of_mem a hx))]

/-- Composing two saves of records with the same id keeps only the second. -/
theorem replaceConv_replaceConv (l : List Conversation) (c1 c2 : Conversation)
    (h : c1.id = c2.id) : replaceConv (replaceConv l c1) c2 = replaceConv l c2 := by
  unfold replaceConv
  rw [List.map_map]
  apply List.map_congr_left
  intro x _
  show (if ((if (x.id == c1.id) then c1 else x).id == c2.id) then c2
        else (if (x.id == c1.id) then c1 else x)) =
      if (x.id == c2.id) then c2 else x
  by_cases hx : x.id = c1.id
  · simp [hx, h]
  · simp [hx]

/-- Replacement over an append distributes. -/
theorem replaceMsg_append (l1 l2 : List Message) (m : Message) :
    replaceMsg (l1 ++ l2) m = replaceMsg l1 m ++ replaceMsg l2 m := by
  unfold replaceMsg
  exact List.map_append _ l1 l2

/-- Point lookup after saving a conversation with the looked-up id. -/
theorem get_saveConversation_self (s : Store) (c : Conversation) :
    Conversation.get (s.saveConversation c) c.id =
      (Conversation.get s c.id).map (fun _ => c) := by
  unfold Conversation.get Store.saveConversation
  exact find?_replaceConv_self s.conversations c

/-- Point lookup of a different id after saving a conversation. -/
theorem get_saveConversation_ne (s : Store) (c : Conversation) (cid : Nat)
    (h : cid ≠ c.id) :
    Conversation.get (s.saveConversation c) cid = Conversation.get s cid := by
  unfold Conversation.get Store.saveConversation
  exact find?_replaceConv_ne s.conversations c cid h

/-! Conversation-resolution lemmas. -/

/-- A supplied id that resolves to a conversation owned by the caller is
returned as-is, with the store untouched. -/
theorem get_or_create_found (s : Store) (cid uid : Nat) (conv : Conversation)
    (hget : Conversation.get s cid = some conv) (hown : conv.user_id = uid) :
    get_or_create_conversation s (some cid) uid = { store := s, conv := conv } := by
  simp only [get_or_create_conversation, hget, hown, beq_self_eq_true, if_true]

/-- A supplied id that resolves to nothing falls through to creation. -/
theorem get_or_create_not_found (s : Store) (cid uid : Nat)
    (hget : Conversation.get s cid = none) :
    get_or_create_conversation s (some cid) uid = createConversation s uid := by
  simp only [get_or_create_conversation, hget]

/-- A supplied id that resolves to another user's conversation falls
through to creation. -/
theorem get_or_create_unowned (s : Store) (cid uid : Nat) (conv : Conversation)
    (hget : Conversation.get s cid = some conv) (hown : conv.user_id ≠ uid) :
    get_or_create_conversation s (some cid) uid = createConversation s uid := by
  have hb : (conv.user_id == uid) = false := by simpa using hown
  simp only [get_or_create_conversation, hget, hb, Bool.false_eq_true, if_false]

/-- No supplied id means creation. -/
theorem get_or_create_none (s : Store) (uid : Nat) :
    get_or_create_conversation s none uid = createConversation s uid := rfl

/-- Creation facts used by the resolution lemmas below. -/
theorem createConversation_spec (s : Store) (uid : Nat) :
    (createConversation s uid).store.messages = s.messages ∧
    (createConversation s uid).store.nextMsgId = s.nextMsgId ∧
    s.clock ≤ (createConversation s uid).store.clock ∧
    s.nextConvId ≤ (createConversation s uid).store.nextConvId ∧
    (createConversation s uid).conv.user_id = uid :=
  ⟨rfl, rfl, Nat.le_succ _, Nat.le_succ _, rfl⟩

/-- Facts about any resolution that hold on both paths: the message
collection and its allocator are untouched, the clock does not go back,
and the resolved conversation is owned by the caller. -/
theorem resolve_spec (s : Store) (cid : Option Nat) (uid : Nat) :
    (get_or_create_conversation s cid uid).store.messages = s.messages ∧
    (get_or_create_conversation s cid uid).store.nextMsgId = s.nextMsgId ∧
    s.clock ≤ (get_or_create_conversation s cid uid).store.clock ∧
    s.nextConvId ≤ (get_or_create_conversation s cid uid).store.nextConvId ∧
    (get_or_create_conversation s cid uid).conv.user_id = uid := by
  rcases cid with _ | c
  · rw [get_or_create_none]
    exact createConversation_spec s uid
  · rcases hget : Conversation.get s c with _ | conv
    · rw [get_or_create_not_found s c uid hget]
      exact createConversation_spec s uid
    · by_cases hown : conv.user_id = uid
      · rw [get_or_create_found s c uid conv hget hown]
        exact ⟨rfl, rfl, Nat.le_refl _, Nat.le_refl _, hown⟩
      · rw [get_or_create_unowned s c uid conv hget hown]
        exact createConversation_spec s uid

/-- Creation yields a well-formed store with a freshly allocated id. -/
theorem createConversation_wf (s : Store) (uid : Nat) (hWF : s.WF) :
    (createConversation s uid).store.WF ∧
    (createConversation s uid).conv.id < (createConversation s uid).store.nextConvId := by
  obtain ⟨h1, h2, h3, h4, h5⟩ := hWF
  refine ⟨⟨h1, ?_, ?_, h4, ?_⟩, Nat.lt_succ_self _⟩
  · exact fun m hm => Nat.lt_succ_of_lt (h2 m hm)
  · exact fun m hm => Nat.lt_succ_of_lt (h3 m hm)
  · intro c hc
    rcases List.mem_append.mp hc with hc | hc
    · exact Nat.lt_succ_of_lt (h5 c hc)
    · rcases List.mem_singleton.mp hc with rfl
      exact Nat.lt_succ_self _

/-- Resolution preserves well-formedness, and the resolved conversation's
id is an allocated one. -/
theorem resolve_wf (s : Store) (cid : Option Nat) (uid : Nat) (hWF : s.WF) :
    (get_or_create_conversation s cid uid).store.WF ∧
    (get_or_create_conversation s cid uid).conv.id <
      (get_or_create_conversation s cid uid).store.nextConvId := by
  rcases cid with _ | c
  · rw [get_or_create_none]
    exact createConversation_wf s uid hWF
  · rcases hget : Conversation.get s c with _ | conv
    · rw [get_or_create_not_found s c uid hget]
      exact createConversation_wf s uid hWF
    · by_cases hown : conv.user_id = uid
      · rw [get_or_create_found s c uid conv hget hown]
        exact ⟨hWF, hWF.2.2.2.2 conv (List.mem_of_find?_eq_some hget)⟩
      · rw [get_or_create_unowned s c uid conv hget hown]
        exact createConversation_wf s uid hWF

/-- The first half of the run computes exactly these shapes. -/
theorem beginTurn_eq (s : Store) (cid : Option Nat) (msg : String) (uid : Nat) :
    beginTurn s cid msg uid =
      { store := storeAfterInserts (get_or_create_conversation s cid uid) msg
        conv := convBothOf (get_or_create_conversation s cid uid)
        userMsg := userMsgOf (get_or_create_conversation s cid uid) msg
        aiMsg := aiMsgOf (get_or_create_conversation s cid uid)
        history := get_conversation_context
          (storeAfterInserts (get_or_create_conversation s cid uid) msg)
          (convBothOf (get_or_create_conversation s cid uid)) } := rfl

/-- A run whose generation call raises computes exactly this error. -/
theorem run_genfail_eq (s : Store) (cid : Option Nat) (msg : String) (uid : Nat)
    (e : String) (cse : Option String) :
    process_user_message s cid msg uid { gen := GenOutcome.failure e, convSaveError := cse } =
      Except.error
        { store := (storeAfterInserts (get_or_create_conversation s cid uid) msg).saveMessage
            (aiFailedOf (get_or_create_conversation s cid uid) e)
          error := e } := rfl

/-- A fully successful run computes exactly this result. -/
theorem run_ok_eq (s : Store) (cid : Option Nat) (msg : String) (uid : Nat) (gk : GenOk) :
    process_user_message s cid msg uid { gen := GenOutcome.ok gk, convSaveError := none } =
      Except.ok
        { store := ((storeAfterInserts (get_or_create_conversation s cid uid) msg).saveMessage
              (aiDoneOf (get_or_create_conversation s cid uid) gk)).saveConversation
            (convDoneOf (get_or_create_conversation s cid uid) gk)
          conversation_id := (get_or_create_conversation s cid uid).conv.id
          user_message_id := (get_or_create_conversation s cid uid).store.nextMsgId
          ai_message_id := (get_or_create_conversation s cid uid).store.nextMsgId + 1
          response := gk.text
          metadata := mdOf (get_or_create_conversation s cid uid).conv gk } := rfl

/-- A run whose generation succeeds but whose final conversation save
raises computes exactly this error. -/
theorem run_convsavefail_eq (s : Store) (cid : Option Nat) (msg : String) (uid : Nat)
    (gk : GenOk) (e : String) :
    process_user_message s cid msg uid { gen := GenOutcome.ok gk, convSaveError := some e } =
      Except.error
        { store := ((storeAfterInserts (get_or_create_conversation s cid uid) msg).saveMessage
              (aiDoneOf (get_or_create_conversation s cid uid) gk)).saveMessage
            (aiDoneFailedOf (get_or_create_conversation s cid uid) gk e)
          error := e } := rfl

/-! Final-store shape lemmas. -/

/-- Replacing the id of the last element replaces only it. -/
theorem replaceMsg_snoc (l : List Message) (a m : Message)
    (hl : ∀ x ∈ l, x.id ≠ m.id) (ha : a.id = m.id) :
    replaceMsg (l ++ [a]) m = l ++ [m] := by
  rw [replaceMsg_append, replaceMsg_eq_self l m hl]
  show _ ++ [if (a.id == m.id) then m else a] = _ ++ [m]
  rw [if_pos (by simpa using ha)]

/-- The message list after both inserts followed by a save of the
assistant message (any record carrying the placeholder's id). -/
theorem messages_after_ai_save (g : ResolveResult) (msg : String) (m : Message)
    (hid : m.id = g.store.nextMsgId + 1)
    (hids : ∀ x ∈ g.store.messages, x.id < g.store.nextMsgId) :
    ((storeAfterInserts g msg).saveMessage m).messages =
      g.store.messages ++ [userMsgOf g msg] ++ [m] := by
  show replaceMsg (g.store.messages ++ [userMsgOf g msg] ++ [aiMsgOf g]) m = _
  refine replaceMsg_snoc _ _ _ ?_ ?_
  · intro x hx
    rcases List.mem_append.mp hx with hx | hx
    · have := hids x hx
      omega
    · rcases List.mem_singleton.mp hx with rfl
      show g.store.nextMsgId ≠ m.id
      omega
  · rw [hid]
    rfl

/-- The conversations list after both inserts collapses to a single
replacement. -/
theorem conversations_after_inserts (g : ResolveResult) (msg : String) :
    (storeAfterInserts g msg).conversations =
      replaceConv g.store.conversations (convBothOf g) := by
  show replaceConv (replaceConv g.store.conversations (convMidOf g)) (convBothOf g) = _
  exact replaceConv_replaceConv _ _ _ rfl

/-- Looking up the resolved conversation after both inserts. -/
theorem get_after_inserts (g : ResolveResult) (msg : String) :
    Conversation.get (storeAfterInserts g msg) g.conv.id =
      (Conversation.get g.store g.conv.id).map (fun _ => convBothOf g) := by
  show ((storeAfterInserts g msg).conversations).find? _ = _
  rw [conversations_after_inserts]
  exact find?_replaceConv_self g.store.conversations (convBothOf g)

/-- Looking up any other conversation after both inserts. -/
theorem get_after_inserts_ne (g : ResolveResult) (msg : String) (j : Nat)
    (h : j ≠ g.conv.id) :
    Conversation.get (storeAfterInserts g msg) j = Conversation.get g.store j := by
  show ((storeAfterInserts g msg).conversations).find? _ = _
  rw [conversations_after_inserts]
  exact find?_replaceConv_ne g.store.conversations (convBothOf g) j h

/-! Metadata-dict facts. -/

/-- The metadata dict never carries a "tokens_used" key, so the
`metadata.get("tokens_used", 0)` of the success reconciliation is 0. -/
theorem mdOf_tokens_used (conv : Conversation) (gk : GenOk) :
    mdGetIntD (mdOf conv gk) "tokens_used" 0 = 0 := rfl

/-- The recorded confidence score is the computed one. -/
theorem mdOf_confidence (conv : Conversation) (gk : GenOk) :
    mdGetNum (mdOf conv gk) "confidence_score" = some (_calculate_confidence gk.text) := rfl

/-- The recorded model name is the settings default model. -/
theorem mdOf_model_used (conv : Conversation) (gk : GenOk) :
    mdGetStr (mdOf conv gk) "model_used" = some settings_default_model := rfl

/-- The recorded max_tokens is the Python-`or` resolution of the
override against the settings default. -/
theorem mdOf_max_tokens (conv : Conversation) (gk : GenOk) :
    mdGet (mdOf conv gk) "max_tokens" =
      some (MetaVal.int (pyOrNat conv.model_config.max_tokens settings_max_tokens)) := rfl

/-- The recorded temperature is the Python-`or` resolution of the
override against the settings default. -/
theorem mdOf_temperature (conv : Conversation) (gk : GenOk) :
    mdGet (mdOf conv gk) "temperature" =
      some (MetaVal.num (pyOrRat conv.model_config.temperature settings_temperature)) := rfl

/-! Context-assembly lemmas. -/

/-- Ordered insertion appends when the element sorts after everything in
the list. -/
theorem orderedInsert_eq_append (a : Message) (l : List Message)
    (h : ∀ b ∈ l, ¬ msgGE a b) : l.orderedInsert msgGE a = l ++ [a] := by
  induction l with
  | nil => rfl
  | cons b t ih =>
    show (if msgGE a b then a :: b :: t else b :: t.orderedInsert msgGE a) = b :: (t ++ [a])
    rw [if_neg (h b (List.mem_cons_self b t))]
    rw [ih (fun x hx => h x (List.mem_cons_of_mem b hx))]

/-- Sorting a chronologically ascending list in descending timestamp
order just reverses it. -/
theorem insertionSort_eq_reverse (l : List Message)
    (h : l.Pairwise (fun a b => a.timestamp < b.timestamp)) :
    List.insertionSort msgGE l = l.reverse := by
  induction l with
  | nil => rfl
  | cons a l ih =>
    obtain ⟨ha, hl⟩ := List.pairwise_cons.mp h
    rw [List.reverse_cons]
    show (List.insertionSort msgGE l).orderedInsert msgGE a = l.reverse ++ [a]
    rw [ih hl]
    apply orderedInsert_eq_append
    intro b hb
    have hab := ha b (List.mem_reverse.mp hb)
    unfold msgGE
    omega

/-- The conversation's filtered message collection after the two inserts. -/
theorem filter_messages_after_inserts (g : ResolveResult) (msg : String) :
    ((storeAfterInserts g msg).messages).filter
        (fun m => m.conversation_id == g.conv.id) =
      (g.store.messages.filter (fun m => m.conversation_id == g.conv.id))
        ++ [userMsgOf g msg, aiMsgOf g] := by
  show ((g.store.messages ++ [userMsgOf g msg] ++ [aiMsgOf g]).filter _) = _
  rw [List.filter_append, List.filter_append]
  simp [userMsgOf, aiMsgOf]

/-- The store query of context assembly, after the two inserts: the
placeholder is the newest record, the user message the second newest. -/
theorem get_messages_after_inserts (g : ResolveResult) (msg : String)
    (hWF : g.store.WF) (limit : Nat) :
    Conversation.get_messages (storeAfterInserts g msg) (convBothOf g) limit =
      ((aiMsgOf g) :: (userMsgOf g msg) ::
        (g.store.messages.filter (fun m => m.conversation_id == g.conv.id)).reverse).take
        limit := by
  unfold Conversation.get_messages
  have h0 : (convBothOf g).id = g.conv.id := rfl
  rw [h0, filter_messages_after_inserts g msg]
  have hold : (g.store.messages.filter (fun m => m.conversation_id == g.conv.id)).Pairwise
      (fun a b => a.timestamp < b.timestamp) :=
    hWF.2.2.2.1.sublist (List.filter_sublist g.store.messages)
  have hts : ∀ x ∈ g.store.messages.filter (fun m => m.conversation_id == g.conv.id),
      x.timestamp < g.store.clock := by
    intro x hx
    exact hWF.2.1 x (List.mem_of_mem_filter hx)
  have hpw : ((g.store.messages.filter (fun m => m.conversation_id == g.conv.id))
      ++ [userMsgOf g msg, aiMsgOf g]).Pairwise (fun a b => a.timestamp < b.timestamp) := by
    rw [List.pairwise_append]
    refine ⟨hold, ?_, ?_⟩
    · constructor
      · intro b hb
        rcases List.mem_singleton.mp hb with rfl
        exact Nat.lt_succ_self _
      · exact List.pairwise_singleton _ _
    · intro x hx b hb
      have hxc := hts x hx
      rcases List.mem_cons.mp hb with rfl | hb
      · exact hxc
      · rcases List.mem_singleton.mp hb with rfl
        exact Nat.lt_succ_of_lt hxc
  rw [insertionSort_eq_reverse _ hpw]
  rw [List.reverse_append]
  rfl

/-- Context assembly after the two inserts, when the window has room for
at least two records: the window is filled starting from the placeholder,
the placeholder itself is filtered out, and the user turn is the final
entry. -/
theorem history_after_inserts (g : ResolveResult) (msg : String) (hWF : g.store.WF)
    (hW : 2 ≤ g.conv.context_window) :
    get_conversation_context (storeAfterInserts g msg) (convBothOf g) =
      ((((g.store.messages.filter (fun m => m.conversation_id == g.conv.id)).reverse.take
          (g.conv.context_window - 2)).reverse).filter
        (fun m => m.status == MessageStatus.completed)).map msgToTurn
      ++ [msgToTurn (userMsgOf g msg)] := by
  unfold get_conversation_context contextMessages
  rw [get_messages_after_inserts g msg hWF]
  obtain ⟨k, hk⟩ : ∃ k, g.conv.context_window = k + 2 :=
    ⟨g.conv.context_window - 2, by omega⟩
  have hcw : (convBothOf g).context_window = g.conv.context_window := rfl
  rw [hcw, hk, Nat.add_sub_cancel]
  rw [List.take_succ_cons, List.take_succ_cons]
  rw [List.reverse_cons, List.reverse_cons]
  rw [List.filter_append, List.filter_append]
  have hu : List.filter (fun m => m.status == MessageStatus.completed)
      [userMsgOf g msg] = [userMsgOf g msg] := rfl
  have hai : List.filter (fun m => m.status == MessageStatus.completed)
      [aiMsgOf g] = [] := rfl
  rw [hu, hai, List.append_nil, List.map_append]
  rfl

/-! Lookup helpers over the explicit final stores. -/

/-- Lookup by id misses a message list whose ids all differ from it. -/
theorem find?_msg_id_none (A : List Message) (i : Nat) (h : ∀ x ∈ A, x.id ≠ i) :
    A.find? (fun x => x.id == i) = none :=
  List.find?_eq_none.mpr (fun x hx => by simpa using h x hx)

/-- Lookup by id misses a conversation list whose ids all differ from it. -/
theorem find?_conv_id_none (A : List Conversation) (i : Nat) (h : ∀ x ∈ A, x.id ≠ i) :
    A.find? (fun x => x.id == i) = none :=
  List.find?_eq_none.mpr (fun x hx => by simpa using h x hx)

/-- Finding the first of the two appended messages. -/
theorem find?_snoc2_fst (A : List Message) (u a : Message)
    (hA : ∀ x ∈ A, x.id ≠ u.id) :
    (A ++ [u] ++ [a]).find? (fun x => x.id == u.id) = some u := by
  rw [List.find?_append, List.find?_append, find?_msg_id_none A u.id hA]
  simp

/-- Finding the second of the two appended messages. -/
theorem find?_snoc2_snd (A : List Message) (u a : Message)
    (hA : ∀ x ∈ A, x.id ≠ a.id) (hua : u.id ≠ a.id) :
    (A ++ [u] ++ [a]).find? (fun x => x.id == a.id) = some a := by
  rw [List.find?_append, List.find?_append, find?_msg_id_none A a.id hA]
  simp [hua]

/-- The saved message is a member of the saved list when it overwrites
the final element. -/
theorem mem_replaceMsg_last (l : List Message) (a m : Message) (ha : a.id = m.id) :
    m ∈ replaceMsg (l ++ [a]) m := by
  unfold replaceMsg
  rw [List.map_append]
  apply List.mem_append_right
  show m ∈ [if (a.id == m.id) then m else a]
  rw [if_pos (by simpa using ha)]
  exact List.mem_cons_self m []

/-- The resolved conversation can be looked up in the resolved store. -/
theorem resolve_get_self (s : Store) (cid : Option Nat) (uid : Nat) (hWF : s.WF) :
    Conversation.get (get_or_create_conversation s cid uid).store
        (get_or_create_conversation s cid uid).conv.id =
      some (get_or_create_conversation s cid uid).conv := by
  have hcreate : Conversation.get (createConversation s uid).store
      (createConversation s uid).conv.id = some (createConversation s uid).conv := by
    show (s.conversations ++ [(createConversation s uid).conv]).find? _ = _
    have hid : (createConversation s uid).conv.id = s.nextConvId := rfl
    rw [List.find?_append, hid]
    rw [find?_conv_id_none s.conversations s.nextConvId
      (fun x hx => Nat.ne_of_lt (hWF.2.2.2.2 x hx))]
    simp
    rfl
  rcases cid with _ | c
  · rw [get_or_create_none]
    exact hcreate
  · rcases hget : Conversation.get s c with _ | conv
    · rw [get_or_create_not_found s c uid hget]
      exact hcreate
    · by_cases hown : conv.user_id = uid
      · rw [get_or_create_found s c uid conv hget hown]
        have hcid : conv.id = c := by simpa using List.find?_some hget
        show Conversation.get s conv.id = some conv
        rw [hcid]
        exact hget
      · rw [get_or_create_unowned s c uid conv hget hown]
        exact hcreate

/-- Resolution preserves the count invariant, and establishes it for the
resolved conversation. -/
theorem resolve_inv (s : Store) (cid : Option Nat) (uid : Nat) (hWF : s.WF)
    (hinv : ∀ c ∈ s.conversations, c.message_count = countMessages s c.id) :
    (∀ c ∈ (get_or_create_conversation s cid uid).store.conversations,
      c.message_count = countMessages (get_or_create_conversation s cid uid).store c.id) ∧
    (get_or_create_conversation s cid uid).conv.message_count =
      countMessages (get_or_create_conversation s cid uid).store
        (get_or_create_conversation s cid uid).conv.id := by
  have hnew0 : countMessages s s.nextConvId = 0 := by
    unfold countMessages
    rw [List.length_eq_zero]
    rw [List.filter_eq_nil_iff]
    intro m hm
    simpa using Nat.ne_of_lt (hWF.2.2.1 m hm)
  have hcreate : (∀ c ∈ (createConversation s uid).store.conversations,
      c.message_count = countMessages (createConversation s uid).store c.id) ∧
      (createConversation s uid).conv.message_count =
        countMessages (createConversation s uid).store
          (createConversation s uid).conv.id := by
    constructor
    · intro c hc
      rcases List.mem_append.mp hc with hc | hc
      · exact hinv c hc
      · rcases List.mem_singleton.mp hc with rfl
        exact hnew0.symm
    · exact hnew0.symm
  rcases cid with _ | c
  · rw [get_or_create_none]
    exact hcreate
  · rcases hget : Conversation.get s c with _ | conv
    · rw [get_or_create_not_found s c uid hget]
      exact hcreate
    · by_cases hown : conv.user_id = uid
      · rw [get_or_create_found s c uid conv hget hown]
        exact ⟨hinv, hinv conv (List.mem_of_find?_eq_some hget)⟩
      · rw [get_or_create_unowned s c uid conv hget hown]
        exact hcreate

/-- The conversations list of the final success store collapses to one
replacement. -/
theorem conversations_finalOk (g : ResolveResult) (msg : String) (gk : GenOk) :
    (finalOkStore g msg gk).conversations =
      replaceConv g.store.conversations (convDoneOf g gk) := by
  show replaceConv (replaceConv (replaceConv g.store.conversations (convMidOf g))
      (convBothOf g)) (convDoneOf g gk) = _
  rw [replaceConv_replaceConv (replaceConv g.store.conversations (convMidOf g))
    (convBothOf g) (convDoneOf g gk) rfl]
  rw [replaceConv_replaceConv g.store.conversations (convMidOf g) (convDoneOf g gk) rfl]

/-- Message counts in the final success store: the resolved conversation
gained exactly two records, every other id gained none. -/
theorem countMessages_finalOk (g : ResolveResult) (msg : String) (gk : GenOk)
    (hids : ∀ x ∈ g.store.messages, x.id < g.store.nextMsgId) (j : Nat) :
    countMessages (finalOkStore g msg gk) j =
      countMessages g.store j + (if j = g.conv.id then 2 else 0) := by
  have hmsgs : (finalOkStore g msg gk).messages =
      g.store.messages ++ [userMsgOf g msg] ++ [aiDoneOf g gk] := by
    show ((storeAfterInserts g msg).saveMessage (aiDoneOf g gk)).messages = _
    exact messages_after_ai_save g msg _ rfl hids
  unfold countMessages
  rw [hmsgs, List.filter_append, List.filter_append, List.length_append,
    List.length_append]
  by_cases hj : j = g.conv.id
  · rw [if_pos hj]
    have h1 : List.filter (fun m => m.conversation_id == j) [userMsgOf g msg] =
        [userMsgOf g msg] := by
      simp [userMsgOf, hj]
    have h2 : List.filter (fun m => m.conversation_id == j) [aiDoneOf g gk] =
        [aiDoneOf g gk] := by
      simp [aiDoneOf, aiMsgOf, hj]
    rw [h1, h2]
    rfl
  · rw [if_neg hj]
    have h1 : List.filter (fun m => m.conversation_id == j) [userMsgOf g msg] = [] := by
      simp [userMsgOf]
      omega
    have h2 : List.filter (fun m => m.conversation_id == j) [aiDoneOf g gk] = [] := by
      simp [aiDoneOf, aiMsgOf]
      omega
    rw [h1, h2]
    rfl

/-! Claim theorems. -/

/-- C2: context assembly returns entries derived only from COMPLETED
messages (the returned turns are exactly the role-mapping of the
COMPLETED survivors), never more than `context_window` of them, and in
chronological oldest-first order by message timestamp. -/
theorem context_assembly_spec (s : Store) (conv : Conversation) :
    get_conversation_context s conv = (contextMessages s conv).map msgToTurn ∧
    (∀ m ∈ contextMessages s conv, m.status = MessageStatus.completed) ∧
    (get_conversation_context s conv).length ≤ conv.context_window ∧
    (contextMessages s conv).Pairwise (fun a b => a.timestamp ≤ b.timestamp) := by
  refine ⟨rfl, ?_, ?_, ?_⟩
  · intro m hm
    have := List.of_mem_filter hm
    simpa using this
  · show ((contextMessages s conv).map msgToTurn).length ≤ _
    rw [List.length_map]
    unfold contextMessages
    calc (((Conversation.get_messages s conv conv.context_window).reverse).filter
          (fun m => m.status == MessageStatus.completed)).length
        ≤ ((Conversation.get_messages s conv conv.context_window).reverse).length :=
          List.length_filter_le _ _
      _ = (Conversation.get_messages s conv conv.context_window).length :=
          List.length_reverse _
      _ ≤ conv.context_window := by
          unfold Conversation.get_messages
          rw [List.length_take]
          omega
  · unfold contextMessages
    apply List.Pairwise.sublist (List.filter_sublist _)
    rw [List.pairwise_reverse]
    apply List.Pairwise.sublist (List.take_sublist _ _)
    exact List.sorted_insertionSort msgGE _

/-- C5 counterexample: context assembly does not drop SYSTEM messages; a
stored COMPLETED SYSTEM message yields a context entry (tagged with role
"assistant"). -/
theorem system_message_not_dropped :
    sysMsgA.message_type = MessageType.system ∧
    get_conversation_context S5c convA =
      [{ role := "assistant", content := "system note" }] := by
  exact ⟨rfl, rfl⟩

/-- C5 amended: SYSTEM-typed messages are not excluded from context
assembly; any COMPLETED SYSTEM message that survives the window appears
in the returned sequence, role-tagged "assistant" (the role mapping sends
everything except USER to "assistant"); only non-COMPLETED messages are
dropped. -/
theorem system_messages_in_context (s : Store) (conv : Conversation) (m : Message)
    (hm : m ∈ contextMessages s conv) (hsys : m.message_type = MessageType.system) :
    Turn.mk "assistant" m.content ∈ get_conversation_context s conv := by
  unfold get_conversation_context
  refine List.mem_map.mpr ⟨m, hm, ?_⟩
  unfold msgToTurn
  rw [hsys]
  rfl

/-- C5 amended, witness: the concrete SYSTEM message of `S5c` appears in
the context with role "assistant". -/
theorem system_messages_in_context_witness :
    Turn.mk "assistant" "system note" ∈ get_conversation_context S5c convA :=
  system_messages_in_context S5c convA sysMsgA (by decide) (by decide)

/-- Bounds of the confidence heuristic, by case analysis on its
branches. -/
theorem calculate_confidence_mem_Icc (text : String) :
    (1 : ℚ)/10 ≤ _calculate_confidence text ∧ _calculate_confidence text ≤ (9 : ℚ)/10 := by
  unfold _calculate_confidence
  by_cases h1 : text = "" ∨ text.trim.length < 5
  · rw [if_pos h1]
    norm_num
  · rw [if_neg h1]
    by_cases h2 : (pySplitWS text).length < 3
    · rw [if_pos h2]
      norm_num
    · rw [if_neg h2]
      by_cases h3 : (pySplitWS text).length > 100
      · rw [if_pos h3]
        norm_num
      · rw [if_neg h3]
        constructor
        · refine le_min (by norm_num) ?_
          have h0 : (0 : ℚ) ≤ ((pySplitWS text).length : ℚ)/100 * ((1 : ℚ)/2) := by
            positivity
          linarith
        · exact min_le_left _ _

/-- A generalised key for the save-then-get lemma. -/
theorem get_saveConversation_key (s : Store) (c : Conversation) (i : Nat) (h : c.id = i) :
    Conversation.get (s.saveConversation c) i = (Conversation.get s i).map (fun _ => c) := by
  subst h
  exact get_saveConversation_self s c

/-- C10: the confidence computation always returns a value in the closed
interval [0.1, 0.9]; consequently an assistant message completed by the
generation path records a confidence score in that interval. -/
theorem confidence_score_range (text : String) (s : Store) (cid : Option Nat)
    (msg : String) (uid : Nat) (gk : GenOk) :
    ((1 : ℚ)/10 ≤ _calculate_confidence text ∧ _calculate_confidence text ≤ (9 : ℚ)/10) ∧
    process_user_message s cid msg uid { gen := GenOutcome.ok gk, convSaveError := none } =
      Except.ok
        { store := finalOkStore (get_or_create_conversation s cid uid) msg gk
          conversation_id := (get_or_create_conversation s cid uid).conv.id
          user_message_id := (get_or_create_conversation s cid uid).store.nextMsgId
          ai_message_id := (get_or_create_conversation s cid uid).store.nextMsgId + 1
          response := gk.text
          metadata := mdOf (get_or_create_conversation s cid uid).conv gk } ∧
    (aiDoneOf (get_or_create_conversation s cid uid) gk).message_type =
      MessageType.assistant ∧
    (aiDoneOf (get_or_create_conversation s cid uid) gk).status =
      MessageStatus.completed ∧
    (aiDoneOf (get_or_create_conversation s cid uid) gk).confidence_score =
      some (_calculate_confidence gk.text) ∧
    aiDoneOf (get_or_create_conversation s cid uid) gk ∈
      (finalOkStore (get_or_create_conversation s cid uid) msg gk).messages ∧
    (1 : ℚ)/10 ≤ _calculate_confidence gk.text ∧
    _calculate_confidence gk.text ≤ (9 : ℚ)/10 := by
  refine ⟨calculate_confidence_mem_Icc text, run_ok_eq s cid msg uid gk, rfl, rfl, rfl,
    ?_, (calculate_confidence_mem_Icc gk.text).1, (calculate_confidence_mem_Icc gk.text).2⟩
  show aiDoneOf _ gk ∈ replaceMsg
    ((get_or_create_conversation s cid uid).store.messages
      ++ [userMsgOf (get_or_create_conversation s cid uid) msg]
      ++ [aiMsgOf (get_or_create_conversation s cid uid)])
    (aiDoneOf (get_or_create_conversation s cid uid) gk)
  exact mem_replaceMsg_last _ _ _ rfl

/-- C7 counterexample: archiving then restoring `convA` returns it to
status ACTIVE but bumps `updated_at`, so not every other field is
unchanged. -/
theorem archive_restore_changes_updated_at :
    archive_conversation S1c 0 1 = Except.ok (archivedStoreOf S1c convA) ∧
    restore_conversation (archivedStoreOf S1c convA) 0 1 =
      Except.ok (restoredStoreOf S1c convA) ∧
    Conversation.get S1c 0 = some convA ∧
    Conversation.get (restoredStoreOf S1c convA) 0 =
      some { convA with status := ConversationStatus.active, updated_at := 2 } ∧
    convA.updated_at = 0 ∧
    Conversation.get (restoredStoreOf S1c convA) 0 ≠ some convA := by
  refine ⟨rfl, rfl, rfl, rfl, rfl, ?_⟩
  decide

/-- C7 amended: archiving then restoring an owned conversation returns
it to status ACTIVE with every field other than status and updated_at
unchanged; updated_at is bumped to the restore time. -/
theorem archive_restore_roundtrip (s : Store) (cid uid : Nat) (conv : Conversation)
    (hget : Conversation.get s cid = some conv) (hown : conv.user_id = uid) :
    archive_conversation s cid uid = Except.ok (archivedStoreOf s conv) ∧
    restore_conversation (archivedStoreOf s conv) cid uid =
      Except.ok (restoredStoreOf s conv) ∧
    Conversation.get (restoredStoreOf s conv) cid =
      some { conv with status := ConversationStatus.active, updated_at := s.clock + 1 } := by
  have hcid : conv.id = cid := by simpa using List.find?_some hget
  have hcond : (conv.user_id == uid) = true := by simpa using hown
  have hkey1 := get_saveConversation_key { s with clock := s.clock + 1 } { conv with status := ConversationStatus.archived, updated_at := s.clock } cid (show conv.id = cid from hcid)
  have hkey2 := get_saveConversation_key { archivedStoreOf s conv with clock := s.clock + 2 } { conv with status := ConversationStatus.active, updated_at := s.clock + 1 } cid (show conv.id = cid from hcid)
  have hget2 : Conversation.get (archivedStoreOf s conv) cid =
      some { conv with status := ConversationStatus.archived, updated_at := s.clock } := by
    unfold archivedStoreOf
    rw [hkey1]
    have hsame : Conversation.get { s with clock := s.clock + 1 } cid =
        Conversation.get s cid := rfl
    rw [hsame, hget]
    rfl
  refine ⟨?_, ?_, ?_⟩
  · simp only [archive_conversation, hget, hcond, if_true]
    rfl
  · simp only [restore_conversation, hget2, hcond, if_true]
    rfl
  · unfold restoredStoreOf
    rw [hkey2]
    rw [show Conversation.get { archivedStoreOf s conv with clock := s.clock + 2 } cid =
        Conversation.get (archivedStoreOf s conv) cid from rfl]
    rw [hget2]
    rfl

/-- C7 amended, witness: the round trip on the concrete store `S1c`. -/
theorem archive_restore_roundtrip_witness :
    archive_conversation S1c 0 1 = Except.ok (archivedStoreOf S1c convA) ∧
    restore_conversation (archivedStoreOf S1c convA) 0 1 =
      Except.ok (restoredStoreOf S1c convA) ∧
    Conversation.get (restoredStoreOf S1c convA) 0 =
      some { convA with status := ConversationStatus.active, updated_at := S1c.clock + 1 } :=
  archive_restore_roundtrip S1c 0 1 convA (by decide) rfl

/-- C9 counterexample: with the overrides max_tokens = 0 and
temperature = 0.0 present in model_config, the run records the settings
defaults 512 and 0.7 as the generation parameters, not the overrides. -/
theorem zero_overrides_ignored :
    convZ.model_config.max_tokens = some 0 ∧
    convZ.model_config.temperature = some 0 ∧
    process_user_message S9c (some 0) "hi" 1 WOkA =
      Except.ok
        { store := finalOkStore { store := S9c, conv := convZ } "hi" gkA
          conversation_id := 0
          user_message_id := 0
          ai_message_id := 1
          response := gkA.text
          metadata := mdOf convZ gkA } ∧
    mdGet (mdOf convZ gkA) "max_tokens" = some (MetaVal.int 512) ∧
    mdGet (mdOf convZ gkA) "temperature" = some (MetaVal.num ((7 : ℚ)/10)) ∧
    (512 : Nat) ≠ 0 ∧ ((7 : ℚ)/10) ≠ 0 := by
  refine ⟨rfl, rfl, rfl, rfl, rfl, by decide, by norm_num⟩

/-- C9 amended: a model_config override takes precedence only when it is
present and truthy (nonzero); an override of 0 or 0.0 falls back to the
settings default exactly like an absent one, because the source resolves
the parameters with Python `or`. -/
theorem generation_params_resolution (s : Store) (cid : Option Nat) (msg : String)
    (uid : Nat) (gk : GenOk) (v : Nat) (q : ℚ) (hv : v ≠ 0) (hq : q ≠ 0) :
    process_user_message s cid msg uid { gen := GenOutcome.ok gk, convSaveError := none } =
      Except.ok
        { store := finalOkStore (get_or_create_conversation s cid uid) msg gk
          conversation_id := (get_or_create_conversation s cid uid).conv.id
          user_message_id := (get_or_create_conversation s cid uid).store.nextMsgId
          ai_message_id := (get_or_create_conversation s cid uid).store.nextMsgId + 1
          response := gk.text
          metadata := mdOf (get_or_create_conversation s cid uid).conv gk } ∧
    mdGet (mdOf (get_or_create_conversation s cid uid).conv gk) "max_tokens" =
      some (MetaVal.int (pyOrNat
        (get_or_create_conversation s cid uid).conv.model_config.max_tokens
        settings_max_tokens)) ∧
    mdGet (mdOf (get_or_create_conversation s cid uid).conv gk) "temperature" =
      some (MetaVal.num (pyOrRat
        (get_or_create_conversation s cid uid).conv.model_config.temperature
        settings_temperature)) ∧
    pyOrNat (some v) settings_max_tokens = v ∧
    pyOrRat (some q) settings_temperature = q ∧
    pyOrNat none settings_max_tokens = settings_max_tokens ∧
    pyOrRat none settings_temperature = settings_temperature ∧
    pyOrNat (some 0) settings_max_tokens = settings_max_tokens ∧
    pyOrRat (some 0) settings_temperature = settings_temperature := by
  refine ⟨run_ok_eq s cid msg uid gk, mdOf_max_tokens _ gk, mdOf_temperature _ gk,
    ?_, ?_, rfl, rfl, ?_, ?_⟩
  · simp [pyOrNat, hv]
  · simp [pyOrRat, hq]
  · rfl
  · simp [pyOrRat]

/-- C9 amended, witness: the resolution at concrete inputs, with a
nonzero override pair (7, 0.5). -/
theorem generation_params_resolution_witness :
    process_user_message S9c (some 0) "hi" 1 { gen := GenOutcome.ok gkA, convSaveError := none } =
      Except.ok
        { store := finalOkStore (get_or_create_conversation S9c (some 0) 1) "hi" gkA
          conversation_id := (get_or_create_conversation S9c (some 0) 1).conv.id
          user_message_id := (get_or_create_conversation S9c (some 0) 1).store.nextMsgId
          ai_message_id := (get_or_create_conversation S9c (some 0) 1).store.nextMsgId + 1
          response := gkA.text
          metadata := mdOf (get_or_create_conversation S9c (some 0) 1).conv gkA } ∧
    mdGet (mdOf (get_or_create_conversation S9c (some 0) 1).conv gkA) "max_tokens" =
      some (MetaVal.int (pyOrNat
        (get_or_create_conversation S9c (some 0) 1).conv.model_config.max_tokens
        settings_max_tokens)) ∧
    mdGet (mdOf (get_or_create_conversation S9c (some 0) 1).conv gkA) "temperature" =
      some (MetaVal.num (pyOrRat
        (get_or_create_conversation S9c (some 0) 1).conv.model_config.temperature
        settings_temperature)) ∧
    pyOrNat (some 7) settings_max_tokens = 7 ∧
    pyOrRat (some ((1 : ℚ)/2)) settings_temperature = (1 : ℚ)/2 ∧
    pyOrNat none settings_max_tokens = settings_max_tokens ∧
    pyOrRat none settings_temperature = settings_temperature ∧
    pyOrNat (some 0) settings_max_tokens = settings_max_tokens ∧
    pyOrRat (some 0) settings_temperature = settings_temperature :=
  generation_params_resolution S9c (some 0) "hi" 1 gkA 7 ((1 : ℚ)/2)
    (by decide) (by norm_num)

/-- C8 counterexample: with context_window = 1 the PROCESSING placeholder
occupies the single window slot, so the context handed to the model is
empty and the just-appended USER message does not appear, although the
window is ≥ 1. -/
theorem window_one_context_empty :
    convW1.context_window = 1 ∧
    (beginTurn S8c (some 0) "hello" 1).userMsg.content = "hello" ∧
    (beginTurn S8c (some 0) "hello" 1).userMsg.status = MessageStatus.completed ∧
    (beginTurn S8c (some 0) "hello" 1).history = [] :=
  ⟨rfl, rfl, rfl, rfl⟩

/-- C8 amended: the context built between the inserts and the generation
call always excludes the PROCESSING placeholder (only COMPLETED messages
survive), but the placeholder still occupies one window slot; whenever
the resolved conversation's context_window is at least 2 the
just-appended USER message is the newest (final) context entry and the
context is strictly shorter than the window.  (At context_window = 1 the
context is empty, per the counterexample.) -/
theorem context_includes_user_message (s : Store) (cid : Option Nat) (msg : String)
    (uid : Nat) (hWF : s.WF)
    (hW : 2 ≤ (get_or_create_conversation s cid uid).conv.context_window) :
    (beginTurn s cid msg uid).history.getLast? =
      some { role := "user", content := msg } ∧
    (beginTurn s cid msg uid).history.length <
      (get_or_create_conversation s cid uid).conv.context_window ∧
    (beginTurn s cid msg uid).aiMsg.status = MessageStatus.processing ∧
    (∀ m ∈ contextMessages (beginTurn s cid msg uid).store (beginTurn s cid msg uid).conv,
      m.status = MessageStatus.completed) := by
  have hg := resolve_wf s cid uid hWF
  have hist := history_after_inserts (get_or_create_conversation s cid uid) msg hg.1 hW
  have hbt : (beginTurn s cid msg uid).history =
      get_conversation_context
        (storeAfterInserts (get_or_create_conversation s cid uid) msg)
        (convBothOf (get_or_create_conversation s cid uid)) := rfl
  refine ⟨?_, ?_, rfl, ?_⟩
  · rw [hbt, hist, List.getLast?_concat]
    rfl
  · rw [hbt, hist, List.length_append, List.length_map]
    have h1 : (((((get_or_create_conversation s cid uid).store.messages.filter
        (fun m => m.conversation_id == (get_or_create_conversation s cid uid).conv.id)).reverse.take
          ((get_or_create_conversation s cid uid).conv.context_window - 2)).reverse).filter
        (fun m => m.status == MessageStatus.completed)).length ≤
        (get_or_create_conversation s cid uid).conv.context_window - 2 := by
      calc (((((get_or_create_conversation s cid uid).store.messages.filter
          (fun m => m.conversation_id == (get_or_create_conversation s cid uid).conv.id)).reverse.take
            ((get_or_create_conversation s cid uid).conv.context_window - 2)).reverse).filter
          (fun m => m.status == MessageStatus.completed)).length
          ≤ ((((get_or_create_conversation s cid uid).store.messages.filter
            (fun m => m.conversation_id == (get_or_create_conversation s cid uid).conv.id)).reverse.take
              ((get_or_create_conversation s cid uid).conv.context_window - 2)).reverse).length :=
            List.length_filter_le _ _
        _ = (((get_or_create_conversation s cid uid).store.messages.filter
            (fun m => m.conversation_id == (get_or_create_conversation s cid uid).conv.id)).reverse.take
              ((get_or_create_conversation s cid uid).conv.context_window - 2)).length :=
            List.length_reverse _
        _ ≤ (get_or_create_conversation s cid uid).conv.context_window - 2 := by
            rw [List.length_take]
            omega
    simp only [List.length_cons, List.length_nil]
    omega
  · intro m hm
    have := List.of_mem_filter hm
    simpa using this

/-- C8 amended, witness: on the concrete store with the default window
of 10, the user turn is the final context entry and the context is
shorter than the window. -/
theorem context_includes_user_message_witness :
    (beginTurn S1c (some 0) "hello" 1).history.getLast? =
      some { role := "user", content := "hello" } ∧
    (beginTurn S1c (some 0) "hello" 1).history.length <
      (get_or_create_conversation S1c (some 0) 1).conv.context_window := by
  obtain ⟨h1, h2, h3, h4⟩ :=
    context_includes_user_message S1c (some 0) "hello" 1 (by decide) (by decide)
  exact ⟨h1, h2⟩

/-- C1 counterexample: user 2 supplies user 1's conversation id; the
call does not fail with NotFound — it returns success, silently creating
a fresh conversation and writing both messages. -/
theorem cross_user_call_succeeds :
    Conversation.get S1c 0 = some convA ∧
    convA.user_id = 1 ∧
    process_user_message S1c (some 0) "hi" 2 WOkA =
      Except.ok
        { store := finalOkStore (createConversation S1c 2) "hi" gkA
          conversation_id := 1
          user_message_id := 0
          ai_message_id := 1
          response := gkA.text
          metadata := mdOf (createConversation S1c 2).conv gkA } ∧
    (finalOkStore (createConversation S1c 2) "hi" gkA).messages.length =
      S1c.messages.length + 2 :=
  ⟨rfl, rfl, rfl, rfl⟩

/-- C1 amended: when conversation_id is supplied but resolves to nothing
or to another user's conversation, the manager does not raise NotFound:
it silently falls back to creating a fresh conversation (under the fresh
id `nextConvId`, which is not previously present) owned by the caller,
writes both messages to that fresh conversation, and leaves the
referenced conversation, when it exists, untouched. -/
theorem ownership_fallback (s : Store) (cid uid : Nat) (msg : String) (gk : GenOk)
    (hWF : s.WF)
    (hmiss : Conversation.get s cid = none ∨
      ∃ conv, Conversation.get s cid = some conv ∧ conv.user_id ≠ uid) :
    get_or_create_conversation s (some cid) uid = createConversation s uid ∧
    (createConversation s uid).conv.user_id = uid ∧
    (createConversation s uid).conv.id = s.nextConvId ∧
    Conversation.get s s.nextConvId = none ∧
    (userMsgOf (createConversation s uid) msg).conversation_id = s.nextConvId ∧
    (aiMsgOf (createConversation s uid)).conversation_id = s.nextConvId ∧
    process_user_message s (some cid) msg uid
        { gen := GenOutcome.ok gk, convSaveError := none } =
      Except.ok
        { store := finalOkStore (createConversation s uid) msg gk
          conversation_id := s.nextConvId
          user_message_id := s.nextMsgId
          ai_message_id := s.nextMsgId + 1
          response := gk.text
          metadata := mdOf (createConversation s uid).conv gk } ∧
    (∀ conv, Conversation.get s cid = some conv →
      Conversation.get (finalOkStore (createConversation s uid) msg gk) cid = some conv) := by
  have hres : get_or_create_conversation s (some cid) uid = createConversation s uid := by
    rcases hmiss with h | ⟨conv, hget, hown⟩
    · exact get_or_create_not_found s cid uid h
    · exact get_or_create_unowned s cid uid conv hget hown
  refine ⟨hres, rfl, rfl, ?_, rfl, rfl, ?_, ?_⟩
  · exact find?_conv_id_none s.conversations s.nextConvId
      (fun x hx => Nat.ne_of_lt (hWF.2.2.2.2 x hx))
  · have h := run_ok_eq s (some cid) msg uid gk
    rw [hres] at h
    exact h
  · intro conv hget
    have hcid : conv.id = cid := by simpa using List.find?_some hget
    have hlt : conv.id < s.nextConvId := hWF.2.2.2.2 conv (List.mem_of_find?_eq_some hget)
    show (finalOkStore (createConversation s uid) msg gk).conversations.find?
      (fun c => c.id == cid) = some conv
    rw [conversations_finalOk]
    rw [find?_replaceConv_ne _ _ cid (by
      show cid ≠ (convDoneOf (createConversation s uid) gk).id
      have hid : (convDoneOf (createConversation s uid) gk).id = s.nextConvId := rfl
      rw [hid]
      omega)]
    show (s.conversations ++ [(createConversation s uid).conv]).find?
      (fun c => c.id == cid) = some conv
    rw [List.find?_append]
    rw [show s.conversations.find? (fun c => c.id == cid) = some conv from hget]
    rfl

/-- C1 amended, witness: the fallback at the concrete cross-user input. -/
theorem ownership_fallback_witness :
    get_or_create_conversation S1c (some 0) 2 = createConversation S1c 2 ∧
    (createConversation S1c 2).conv.user_id = 2 ∧
    (createConversation S1c 2).conv.id = S1c.nextConvId ∧
    Conversation.get S1c S1c.nextConvId = none := by
  obtain ⟨h1, h2, h3, h4, _⟩ := ownership_fallback S1c 0 2 "hi" gkA (by decide)
    (Or.inr ⟨convA, rfl, by decide⟩)
  exact ⟨h1, h2, h3, h4⟩

/-- C4: when the generation call raises after both messages were
inserted, the run re-raises the error, the assistant message ends FAILED
with the error recorded under metadata.error, both messages are
persisted, and the resolved conversation's message_count has still been
incremented by 2. -/
theorem generation_failure_reconciliation (s : Store) (cid : Option Nat) (msg : String)
    (uid : Nat) (e : String) (cse : Option String) (hWF : s.WF) :
    process_user_message s cid msg uid
        { gen := GenOutcome.failure e, convSaveError := cse } =
      Except.error
        { store := finalGenFailStore (get_or_create_conversation s cid uid) msg e
          error := e } ∧
    (finalGenFailStore (get_or_create_conversation s cid uid) msg e).messages =
      (get_or_create_conversation s cid uid).store.messages
        ++ [userMsgOf (get_or_create_conversation s cid uid) msg]
        ++ [aiFailedOf (get_or_create_conversation s cid uid) e] ∧
    (userMsgOf (get_or_create_conversation s cid uid) msg).content = msg ∧
    (userMsgOf (get_or_create_conversation s cid uid) msg).message_type =
      MessageType.user ∧
    (userMsgOf (get_or_create_conversation s cid uid) msg).status =
      MessageStatus.completed ∧
    (aiFailedOf (get_or_create_conversation s cid uid) e).message_type =
      MessageType.assistant ∧
    (aiFailedOf (get_or_create_conversation s cid uid) e).status =
      MessageStatus.failed ∧
    mdGet (aiFailedOf (get_or_create_conversation s cid uid) e).metadata "error" =
      some (MetaVal.str e) ∧
    Conversation.get (finalGenFailStore (get_or_create_conversation s cid uid) msg e)
        (get_or_create_conversation s cid uid).conv.id =
      some (convBothOf (get_or_create_conversation s cid uid)) ∧
    (convBothOf (get_or_create_conversation s cid uid)).message_count =
      (get_or_create_conversation s cid uid).conv.message_count + 2 := by
  have hg := resolve_wf s cid uid hWF
  refine ⟨run_genfail_eq s cid msg uid e cse, ?_, rfl, rfl, rfl, rfl, rfl, rfl, ?_, rfl⟩
  · show ((storeAfterInserts (get_or_create_conversation s cid uid) msg).saveMessage
      (aiFailedOf (get_or_create_conversation s cid uid) e)).messages = _
    exact messages_after_ai_save _ msg _ rfl hg.1.1
  · have h1 : Conversation.get
        (finalGenFailStore (get_or_create_conversation s cid uid) msg e)
        (get_or_create_conversation s cid uid).conv.id =
        Conversation.get (storeAfterInserts (get_or_create_conversation s cid uid) msg)
          (get_or_create_conversation s cid uid).conv.id := rfl
    rw [h1, get_after_inserts, resolve_get_self s cid uid hWF]
    rfl

/-- C4 witness: the concrete failing run on `S1c`. -/
theorem generation_failure_reconciliation_witness :
    process_user_message S1c (some 0) "hi" 1
        { gen := GenOutcome.failure "GenerationError", convSaveError := none } =
      Except.error
        { store := finalGenFailStore (get_or_create_conversation S1c (some 0) 1) "hi"
            "GenerationError"
          error := "GenerationError" } ∧
    mdGet (aiFailedOf (get_or_create_conversation S1c (some 0) 1) "GenerationError").metadata
        "error" = some (MetaVal.str "GenerationError") ∧
    (convBothOf (get_or_create_conversation S1c (some 0) 1)).message_count =
      (get_or_create_conversation S1c (some 0) 1).conv.message_count + 2 := by
  obtain ⟨h1, _, _, _, _, _, _, h8, _, h10⟩ :=
    generation_failure_reconciliation S1c (some 0) "hi" 1 "GenerationError" none (by decide)
  exact ⟨h1, h8, h10⟩

/-- C6: if every stored conversation's message_count equals its stored
message count before the call, then after a completed (successful) run
every stored conversation's message_count still equals its stored message
count. -/
theorem message_count_matches_store (s : Store) (cid : Option Nat) (msg : String)
    (uid : Nat) (gk : GenOk) (hWF : s.WF)
    (hinv : ∀ c ∈ s.conversations, c.message_count = countMessages s c.id) :
    process_user_message s cid msg uid
        { gen := GenOutcome.ok gk, convSaveError := none } =
      Except.ok
        { store := finalOkStore (get_or_create_conversation s cid uid) msg gk
          conversation_id := (get_or_create_conversation s cid uid).conv.id
          user_message_id := (get_or_create_conversation s cid uid).store.nextMsgId
          ai_message_id := (get_or_create_conversation s cid uid).store.nextMsgId + 1
          response := gk.text
          metadata := mdOf (get_or_create_conversation s cid uid).conv gk } ∧
    ∀ c ∈ (finalOkStore (get_or_create_conversation s cid uid) msg gk).conversations,
      c.message_count =
        countMessages (finalOkStore (get_or_create_conversation s cid uid) msg gk) c.id := by
  have hg := resolve_wf s cid uid hWF
  have hi := resolve_inv s cid uid hWF hinv
  refine ⟨run_ok_eq s cid msg uid gk, ?_⟩
  intro c hc
  rw [conversations_finalOk] at hc
  rcases List.mem_map.mp hc with ⟨x, hx, hcx⟩
  by_cases hb : x.id = (convDoneOf (get_or_create_conversation s cid uid) gk).id
  · rw [if_pos (by simpa using hb)] at hcx
    rw [← hcx]
    rw [countMessages_finalOk _ msg gk hg.1.1]
    have hid : (convDoneOf (get_or_create_conversation s cid uid) gk).id =
        (get_or_create_conversation s cid uid).conv.id := rfl
    rw [if_pos hid, hid]
    show (get_or_create_conversation s cid uid).conv.message_count + 2 =
      countMessages (get_or_create_conversation s cid uid).store
        (get_or_create_conversation s cid uid).conv.id + 2
    rw [hi.2]
  · rw [if_neg (by simpa using hb)] at hcx
    rw [← hcx]
    rw [countMessages_finalOk _ msg gk hg.1.1]
    have hne : ¬ (x.id = (get_or_create_conversation s cid uid).conv.id) := hb
    rw [if_neg hne, Nat.add_zero]
    exact hi.1 x hx

/-- C6 witness: the invariant after the concrete successful run on
`S1c`, checked on the conversation the run touched. -/
theorem message_count_matches_store_witness :
    (convDoneOf (get_or_create_conversation S1c (some 0) 1) gkA).message_count =
      countMessages (finalOkStore (get_or_create_conversation S1c (some 0) 1) "hi" gkA)
        (convDoneOf (get_or_create_conversation S1c (some 0) 1) gkA).id := by
  obtain ⟨_, h2⟩ := message_count_matches_store S1c (some 0) "hi" 1 gkA (by decide)
    (by decide)
  exact h2 (convDoneOf (get_or_create_conversation S1c (some 0) 1) gkA) (by decide)

/-- C3 counterexample: in the run on `S1c` where generation succeeds and
the final conversation save then raises, the assistant message is first
persisted with terminal status COMPLETED (by the success save) and is
afterwards overwritten to FAILED by the except-block — a second write
after reaching a terminal status. -/
theorem completed_then_failed :
    process_user_message S1c (some 0) "hi" 1 WConvFail =
      Except.error
        { store := finalConvFailStore { store := S1c, conv := convA } "hi" gkA "StoreError"
          error := "StoreError" } ∧
    findMessage ((storeAfterInserts { store := S1c, conv := convA } "hi").saveMessage
        (aiDoneOf { store := S1c, conv := convA } gkA)) 1 =
      some (aiDoneOf { store := S1c, conv := convA } gkA) ∧
    (aiDoneOf { store := S1c, conv := convA } gkA).status = MessageStatus.completed ∧
    findMessage (finalConvFailStore { store := S1c, conv := convA } "hi" gkA "StoreError") 1 =
      some (aiDoneFailedOf { store := S1c, conv := convA } gkA "StoreError") ∧
    (aiDoneFailedOf { store := S1c, conv := convA } gkA "StoreError").status =
      MessageStatus.failed := by
  refine ⟨rfl, ?_, rfl, ?_, rfl⟩
  · rfl
  · rfl

/-- C3 amended: in every run, the USER message is created directly in
COMPLETED status and the ASSISTANT message is created in PROCESSING
status; the assistant message ends COMPLETED when the run succeeds and
FAILED when it fails, and is never returned to PROCESSING — but when the
post-generation conversation save fails, the assistant record already
persisted as COMPLETED is overwritten once more, to FAILED. -/
theorem message_lifecycle (s : Store) (cid : Option Nat) (msg : String) (uid : Nat)
    (gk : GenOk) (e : String) (hWF : s.WF) :
    (userMsgOf (get_or_create_conversation s cid uid) msg).status =
      MessageStatus.completed ∧
    (aiMsgOf (get_or_create_conversation s cid uid)).status =
      MessageStatus.processing ∧
    findMessage (storeAfterInserts (get_or_create_conversation s cid uid) msg)
        (userMsgOf (get_or_create_conversation s cid uid) msg).id =
      some (userMsgOf (get_or_create_conversation s cid uid) msg) ∧
    findMessage (storeAfterInserts (get_or_create_conversation s cid uid) msg)
        (aiMsgOf (get_or_create_conversation s cid uid)).id =
      some (aiMsgOf (get_or_create_conversation s cid uid)) ∧
    process_user_message s cid msg uid
        { gen := GenOutcome.failure e, convSaveError := none } =
      Except.error
        { store := finalGenFailStore (get_or_create_conversation s cid uid) msg e
          error := e } ∧
    findMessage (finalGenFailStore (get_or_create_conversation s cid uid) msg e)
        (aiMsgOf (get_or_create_conversation s cid uid)).id =
      some (aiFailedOf (get_or_create_conversation s cid uid) e) ∧
    (aiFailedOf (get_or_create_conversation s cid uid) e).status =
      MessageStatus.failed ∧
    findMessage (finalGenFailStore (get_or_create_conversation s cid uid) msg e)
        (userMsgOf (get_or_create_conversation s cid uid) msg).id =
      some (userMsgOf (get_or_create_conversation s cid uid) msg) ∧
    process_user_message s cid msg uid
        { gen := GenOutcome.ok gk, convSaveError := none } =
      Except.ok
        { store := finalOkStore (get_or_create_conversation s cid uid) msg gk
          conversation_id := (get_or_create_conversation s cid uid).conv.id
          user_message_id := (get_or_create_conversation s cid uid).store.nextMsgId
          ai_message_id := (get_or_create_conversation s cid uid).store.nextMsgId + 1
          response := gk.text
          metadata := mdOf (get_or_create_conversation s cid uid).conv gk } ∧
    findMessage (finalOkStore (get_or_create_conversation s cid uid) msg gk)
        (aiMsgOf (get_or_create_conversation s cid uid)).id =
      some (aiDoneOf (get_or_create_conversation s cid uid) gk) ∧
    (aiDoneOf (get_or_create_conversation s cid uid) gk).status =
      MessageStatus.completed ∧
    findMessage (finalOkStore (get_or_create_conversation s cid uid) msg gk)
        (userMsgOf (get_or_create_conversation s cid uid) msg).id =
      some (userMsgOf (get_or_create_conversation s cid uid) msg) ∧
    process_user_message s cid msg uid
        { gen := GenOutcome.ok gk, convSaveError := some e } =
      Except.error
        { store := finalConvFailStore (get_or_create_conversation s cid uid) msg gk e
          error := e } ∧
    findMessage (finalConvFailStore (get_or_create_conversation s cid uid) msg gk e)
        (aiMsgOf (get_or_create_conversation s cid uid)).id =
      some (aiDoneFailedOf (get_or_create_conversation s cid uid) gk e) ∧
    (aiDoneFailedOf (get_or_create_conversation s cid uid) gk e).status =
      MessageStatus.failed := by
  have hg := resolve_wf s cid uid hWF
  have hidsU : ∀ x ∈ (get_or_create_conversation s cid uid).store.messages,
      x.id ≠ (userMsgOf (get_or_create_conversation s cid uid) msg).id :=
    fun x hx => Nat.ne_of_lt (hg.1.1 x hx)
  have hidsA : ∀ x ∈ (get_or_create_conversation s cid uid).store.messages,
      x.id ≠ (aiMsgOf (get_or_create_conversation s cid uid)).id := by
    intro x hx
    have := hg.1.1 x hx
    show x.id ≠ (get_or_create_conversation s cid uid).store.nextMsgId + 1
    omega
  have huaid : (userMsgOf (get_or_create_conversation s cid uid) msg).id ≠
      (aiMsgOf (get_or_create_conversation s cid uid)).id := by
    show (get_or_create_conversation s cid uid).store.nextMsgId ≠
      (get_or_create_conversation s cid uid).store.nextMsgId + 1
    omega
  have hmsgsGF : (finalGenFailStore (get_or_create_conversation s cid uid) msg e).messages =
      (get_or_create_conversation s cid uid).store.messages
        ++ [userMsgOf (get_or_create_conversation s cid uid) msg]
        ++ [aiFailedOf (get_or_create_conversation s cid uid) e] :=
    messages_after_ai_save _ msg _ rfl hg.1.1
  have hmsgsOK : (finalOkStore (get_or_create_conversation s cid uid) msg gk).messages =
      (get_or_create_conversation s cid uid).store.messages
        ++ [userMsgOf (get_or_create_conversation s cid uid) msg]
        ++ [aiDoneOf (get_or_create_conversation s cid uid) gk] :=
    messages_after_ai_save _ msg _ rfl hg.1.1
  have hmid : ((storeAfterInserts (get_or_create_conversation s cid uid) msg).saveMessage
      (aiDoneOf (get_or_create_conversation s cid uid) gk)).messages =
      (get_or_create_conversation s cid uid).store.messages
        ++ [userMsgOf (get_or_create_conversation s cid uid) msg]
        ++ [aiDoneOf (get_or_create_conversation s cid uid) gk] :=
    messages_after_ai_save _ msg _ rfl hg.1.1
  have hmsgsCF : (finalConvFailStore (get_or_create_conversation s cid uid) msg gk e).messages =
      (get_or_create_conversation s cid uid).store.messages
        ++ [userMsgOf (get_or_create_conversation s cid uid) msg]
        ++ [aiDoneFailedOf (get_or_create_conversation s cid uid) gk e] := by
    show replaceMsg ((storeAfterInserts (get_or_create_conversation s cid uid) msg).saveMessage
      (aiDoneOf (get_or_create_conversation s cid uid) gk)).messages _ = _
    rw [hmid]
    exact replaceMsg_snoc _ _ _
      (by
        intro x hx
        rcases List.mem_append.mp hx with hx | hx
        · exact hidsA x hx
        · rcases List.mem_singleton.mp hx with rfl
          exact huaid)
      rfl
  refine ⟨rfl, rfl, ?_, ?_, run_genfail_eq s cid msg uid e none, ?_, rfl, ?_,
    run_ok_eq s cid msg uid gk, ?_, rfl, ?_, run_convsavefail_eq s cid msg uid gk e, ?_, rfl⟩
  · exact find?_snoc2_fst _ _ _ hidsU
  · exact find?_snoc2_snd _ _ _ hidsA huaid
  · rw [show findMessage (finalGenFailStore (get_or_create_conversation s cid uid) msg e)
        (aiMsgOf (get_or_create_conversation s cid uid)).id =
        (finalGenFailStore (get_or_create_conversation s cid uid) msg e).messages.find?
          (fun x => x.id == (aiMsgOf (get_or_create_conversation s cid uid)).id) from rfl]
    rw [hmsgsGF]
    exact find?_snoc2_snd _ _ (aiFailedOf (get_or_create_conversation s cid uid) e)
      hidsA huaid
  · rw [show findMessage (finalGenFailStore (get_or_create_conversation s cid uid) msg e)
        (userMsgOf (get_or_create_conversation s cid uid) msg).id =
        (finalGenFailStore (get_or_create_conversation s cid uid) msg e).messages.find?
          (fun x => x.id == (userMsgOf (get_or_create_conversation s cid uid) msg).id) from rfl]
    rw [hmsgsGF]
    exact find?_snoc2_fst _ _ _ hidsU
  · rw [show findMessage (finalOkStore (get_or_create_conversation s cid uid) msg gk)
        (aiMsgOf (get_or_create_conversation s cid uid)).id =
        (finalOkStore (get_or_create_conversation s cid uid) msg gk).messages.find?
          (fun x => x.id == (aiMsgOf (get_or_create_conversation s cid uid)).id) from rfl]
    rw [hmsgsOK]
    exact find?_snoc2_snd _ _ (aiDoneOf (get_or_create_conversation s cid uid) gk)
      hidsA huaid
  · rw [show findMessage (finalOkStore (get_or_create_conversation s cid uid) msg gk)
        (userMsgOf (get_or_create_conversation s cid uid) msg).id =
        (finalOkStore (get_or_create_conversation s cid uid) msg gk).messages.find?
          (fun x => x.id == (userMsgOf (get_or_create_conversation s cid uid) msg).id) from rfl]
    rw [hmsgsOK]
    exact find?_snoc2_fst _ _ _ hidsU
  · rw [show findMessage (finalConvFailStore (get_or_create_conversation s cid uid) msg gk e)
        (aiMsgOf (get_or_create_conversation s cid uid)).id =
        (finalConvFailStore (get_or_create_conversation s cid uid) msg gk e).messages.find?
          (fun x => x.id == (aiMsgOf (get_or_create_conversation s cid uid)).id) from rfl]
    rw [hmsgsCF]
    exact find?_snoc2_snd _ _ (aiDoneFailedOf (get_or_create_conversation s cid uid) gk e)
      hidsA huaid

/-- C3 amended, witness: the lifecycle statuses at the concrete input. -/
theorem message_lifecycle_witness :
    (userMsgOf (get_or_create_conversation S1c (some 0) 1) "hi").status =
      MessageStatus.completed ∧
    (aiMsgOf (get_or_create_conversation S1c (some 0) 1)).status =
      MessageStatus.processing ∧
    (aiFailedOf (get_or_create_conversation S1c (some 0) 1) "boom").status =
      MessageStatus.failed ∧
    (aiDoneOf (get_or_create_conversation S1c (some 0) 1) gkA).status =
      MessageStatus.completed := by
  obtain ⟨h1, h2, _, _, _, _, h7, _, _, _, h11, _⟩ :=
    message_lifecycle S1c (some 0) "hi" 1 gkA "boom" (by decide)
  exact ⟨h1, h2, h7, h11⟩

end QBot
